import Mathlib

/-!
Verification of the protocol-detection and connection-bootstrap layer of
`lib/spdy/server.js` (node-spdy style server front-end).

The JavaScript source is shallowly embedded: byte buffers become `List Nat`
(each element a byte value), the sniffer callback value becomes
`Option String` (`none` = "need more bytes", `some p` = definitive protocol),
JavaScript falsy protocol values become `none`, and the observable effects of
connection handling become explicit event traces.
-/

/-- The HTTP/2 connection preface string (`PREFACE`, server.js line 131). -/
def PREFACE : String := "PRI * HTTP/2.0\r\n\r\nSM\r\n\r\n"

/-- Byte view of the preface (`PREFACE_BUFFER`, server.js line 132); every
character is ASCII so `Char.toNat` gives the byte value. -/
def PREFACE_BUFFER : List Nat := PREFACE.toList.map Char.toNat

/-- The scanning loop of `hoseFilter` (server.js lines 143-145): the JS `for`
loop returns `http/1.1` as soon as `data[i] !== PREFACE_BUFFER[i]` for some
`i < avail`; observationally this is exactly "some position below `avail`
mismatches". -/
def hasMismatch (data : List Nat) (avail : Nat) : Bool :=
  (List.range avail).any (fun i => data.getD i 0 != PREFACE_BUFFER.getD i 0)

/-- `hoseFilter` (server.js lines 134-152). `none` models the JS callback value
`null` ("need more bytes"). -/
def hoseFilter (data : List Nat) : Option String :=
  if data.length < 1 then none
  else if data.getD 0 0 = 0x80 then some "spdy"
  else
    let avail := min data.length PREFACE_BUFFER.length
    if hasMismatch data avail then some "http/1.1"
    else if avail ≠ PREFACE_BUFFER.length then none
    else some "h2"

/-- Immutable per-server state relevant to connection dispatch (`state` built
in `_init`, server.js lines 35-79): whether the base class is a TLS server
(`state.secure`), whether plain-text sniffing mode is on
(`state.options.plain`), the optional forced default protocol
(`state.options.protocol`), and the saved default connection listeners
(`state.listeners`), identified here by opaque numeric ids. -/
structure ServerState where
  secure : Bool
  plain : Bool
  defaultProtocol : Option String
  listeners : List Nat
deriving DecidableEq

/-- An accepted connection: an opaque socket id, the TLS
next-protocol-negotiation results (`socket.npnProtocol`,
`socket.alpnProtocol`; `none` models a JS falsy value), and the bytes the
peer sends first (inspected only on the plain path). -/
structure Conn where
  socket : Nat
  npnProtocol : Option String
  alpnProtocol : Option String
  data : List Nat
deriving DecidableEq

/-- Observable effects of `_handleConnection` / `_invokeDefault`, in order of
occurrence: invoking a saved default listener with a socket, creating the
transport session for a protocol family, pinning a version via
`connection.start`, and registering the error and stream observers. -/
inductive ConnEvent where
  | invokeListener (listener : Nat) (socket : Nat)
  | createSession (family : String)
  | startVersion (v : ℚ)
  | registerErrorObserver
  | registerStreamObserver
deriving DecidableEq

/-- JS `a || b` on protocol values, with falsy modelled as `none`. -/
def jsOr (a b : Option String) : Option String :=
  match a with
  | some x => some x
  | none => b

/-- `_invokeDefault` (server.js lines 168-173): call every saved default
listener, in their original order, with the given socket. -/
def invokeDefault (st : ServerState) (socket : Nat) : List ConnEvent :=
  st.listeners.map (fun l => ConnEvent.invokeListener l socket)

/-- Does `needle` occur at the front of `hay`? (helper for the regex test) -/
def matchesFront : List Char → List Char → Bool
  | [], _ => true
  | _ :: _, [] => false
  | a :: as, b :: bs => a == b && matchesFront as bs

/-- Does `needle` occur anywhere in `hay`? (helper for the regex test) -/
def matchesSomewhere (needle : List Char) : List Char → Bool
  | [] => matchesFront needle []
  | b :: bs => matchesFront needle (b :: bs) || matchesSomewhere needle bs

/-- `/spdy/.test(protocol)` (server.js line 106): the regex `/spdy/` matches
iff `"spdy"` occurs as a substring. -/
def spdyTest (s : String) : Bool := matchesSomewhere "spdy".toList s.toList

/-- The version-pinning chain (server.js lines 110-118): `connection.start`
is called with 4, 3.1, 3 or 2 exactly when the protocol string is literally
`http2`, `spdy/3.1`, `spdy/3` or `spdy/2`; otherwise no version is
pinned. -/
def startEvents (p : String) : List ConnEvent :=
  if p = "http2" then [ConnEvent.startVersion 4]
  else if p = "spdy/3.1" then [ConnEvent.startVersion (3.1 : ℚ)]
  else if p = "spdy/3" then [ConnEvent.startVersion 3]
  else if p = "spdy/2" then [ConnEvent.startVersion 2]
  else []

/-- The routing part of `_handleConnection` after the default-protocol
fallback (server.js lines 100-127): a falsy protocol or plain HTTP/1.x goes
to the saved default listeners; anything else creates a transport session of
family `spdy` or `http2` (by `/spdy/.test(protocol)`), pins the version
when the identifier is one of the four exact strings, then registers the
error observer and the stream observer. -/
def routeProtocol (st : ServerState) (socket : Nat) : Option String → List ConnEvent
  | none => invokeDefault st socket
  | some p =>
    if p = "http/1.1" ∨ p = "http/1.0" then invokeDefault st socket
    else
      ConnEvent.createSession (if spdyTest p then "spdy" else "http2") ::
        (startEvents p ++
          [ConnEvent.registerErrorObserver, ConnEvent.registerStreamObserver])

/-- `_handleConnection` (server.js lines 91-128): fall back to
`state.options.protocol` when the incoming protocol is falsy, then route. -/
def handleConnection (st : ServerState) (socket : Nat)
    (protocol : Option String) : List ConnEvent :=
  routeProtocol st socket (jsOr protocol st.defaultProtocol)

/-- The protocol `_onConnection` reads from the socket (server.js lines
84-86): `socket.npnProtocol || socket.alpnProtocol`, and only when the server
is secure. -/
def negotiatedProtocol (st : ServerState) (c : Conn) : Option String :=
  if st.secure then jsOr c.npnProtocol c.alpnProtocol else none

/-- Outcome of dispatching one accepted connection: whether the byte sniffer
was installed and consulted for it, and the connection-handling events
(`none` while the hose has not yet selected a protocol). -/
structure Outcome where
  snifferInvoked : Bool
  events : Option (List ConnEvent)
deriving DecidableEq

/-- `_onConnection` (server.js lines 81-89): no sniffing; the protocol is the
TLS-negotiated one (when secure), then `_handleConnection`. -/
def onConnection (st : ServerState) (c : Conn) : Outcome :=
  ⟨false, some (handleConnection st c.socket (negotiatedProtocol st c))⟩

/-- `_onPlainConnection` (server.js lines 154-166): a select-hose with
`hoseFilter` is layered over the socket; once the filter is definitive the
`select` handler runs `_handleConnection` with the sniffed protocol. -/
def onPlainConnection (st : ServerState) (c : Conn) : Outcome :=
  ⟨true, (hoseFilter c.data).map (fun p => handleConnection st c.socket (some p))⟩

/-- Connection dispatch as registered in `_init` (server.js lines 70-73): in
plain mode every connection goes through `_onPlainConnection`, otherwise
through `_onConnection`. -/
def dispatchConnection (st : ServerState) (c : Conn) : Outcome :=
  if st.plain then onPlainConnection st c else onConnection st c

/-- Does a `ConnEvent` create a session? (used to state "no multiplexed
session is constructed") -/
def isSessionCreate : ConnEvent → Bool
  | ConnEvent.createSession _ => true
  | _ => false

/-- Does a `ConnEvent` pin a version? -/
def isStartVersion : ConnEvent → Bool
  | ConnEvent.startVersion _ => true
  | _ => false

/-- The body of the error observer registered on the session
(server.js lines 120-122): `function() { socket.destroy(); }`. -/
inductive ErrorEffect where
  | destroySocket
  | sessionOp (op : String)
deriving DecidableEq

/-- The error observer's effects on a session-level error (server.js lines
120-122): it ignores the error value and destroys the raw socket — nothing
else. -/
def connectionErrorHandler (_err : String) : List ErrorEffect :=
  [ErrorEffect.destroySocket]

/-- The duck-typed socket surface of the adapter built in `_onStream`
(server.js lines 175-192): `new net.Socket({ handle: handle,
allowHalfOpen: true })` followed by explicit flag writes. -/
structure AdapterSocket where
  allowHalfOpen : Bool
  encrypted : Bool
  readable : Bool
  writable : Bool
deriving DecidableEq

/-- The adapter socket as freshly constructed (server.js lines 177-180):
`allowHalfOpen` is passed as `true`; `encrypted`, `readable`, `writable` are
not yet set. -/
def newAdapterSocket : AdapterSocket := ⟨true, false, false, false⟩

/-- The adapter socket after `socket.encrypted = true` (server.js line 181),
the state in which `handle.assignSocket(socket)` receives it. -/
def adapterSocketEncrypted : AdapterSocket :=
  { newAdapterSocket with encrypted := true }

/-- The adapter socket after `socket.readable = true; socket.writable = true`
(server.js lines 186-187), the state in which `_invokeDefault` receives it. -/
def adapterSocketReady : AdapterSocket :=
  { adapterSocketEncrypted with readable := true, writable := true }

/-- Observable steps of `_onStream`, each carrying the adapter-socket state at
the moment of the call. -/
inductive StreamEvent where
  | assignSocket (s : AdapterSocket)
  | invokeDefault (s : AdapterSocket)
  | emitRequest
deriving DecidableEq

/-- `_onStream` (server.js lines 175-192) as the ordered trace of its
externally visible steps: `handle.assignSocket(socket)`, then
`this._invokeDefault(socket)`, then `handle.emitRequest()`. -/
def onStream : List StreamEvent :=
  [StreamEvent.assignSocket adapterSocketEncrypted,
    StreamEvent.invokeDefault adapterSocketReady,
    StreamEvent.emitRequest]

/-- The kind of `req.socket._handle`: a spdy stream handle (carrying the id of
its Logical Stream) or any other (plain TCP) handle — the
`instanceof spdy.handle` test of server.js line 198. -/
inductive HandleKind where
  | spdyHandle (stream : Nat)
  | other
deriving DecidableEq

/-- Implementation variant of a response operation: the inherited plain-socket
one, or the stream-routed `spdy.response` one installed on lines 211-213. -/
inductive OpImpl where
  | plainSocket
  | spdyStream
deriving DecidableEq

/-- The request fields `emit` reads and writes (server.js lines 198-215):
its socket's handle kind, the `isSpdy` / `spdyVersion` marks (absent before
`emit` runs), and the Logical Stream bound by `handle.assignRequest`. -/
structure Req where
  handle : HandleKind
  isSpdy : Option Bool
  spdyVersion : Option ℚ
  boundStream : Option Nat
deriving DecidableEq

/-- The response fields `emit` writes (server.js lines 211-216): the
`writeHead` and `end` implementations, the optional `push` capability, and
the Logical Stream bound by `handle.assignResponse`. -/
structure Res where
  writeHead : OpImpl
  endImpl : OpImpl
  push : Option OpImpl
  boundStream : Option Nat
deriving DecidableEq

/-- Modelled from the spec: `handle.assignRequest` lives in
`lib/spdy/handle.js`, which is not part of the sources under consideration;
per the spec it "binds the Logical Stream to the request object (the stream
needs to know which response will answer it)". -/
def assignRequest (stream : Nat) (req : Req) : Req :=
  { req with boundStream := some stream }

/-- Modelled from the spec: `handle.assignResponse` lives in
`lib/spdy/handle.js`, which is not part of the sources under consideration;
per the spec it "binds the Logical Stream to the response object (the
response needs to know which stream to write to)". -/
def assignResponse (stream : Nat) (res : Res) : Res :=
  { res with boundStream := some stream }

/-- `emit("request", ...)` (server.js lines 194-219). `version` is the
value of `handle.getStream().connection.getVersion()`, the numeric protocol
version the session reports. The returned pair is what application code
receives. -/
def serverEmit (version : ℚ) (req : Req) (res : Res) : Req × Res :=
  match req.handle with
  | HandleKind.other =>
      ({ req with isSpdy := some false, spdyVersion := some 1 }, res)
  | HandleKind.spdyHandle stream =>
      (assignRequest stream
        { req with isSpdy := some true, spdyVersion := some version },
        assignResponse stream
          { res with
              writeHead := OpImpl.spdyStream
              endImpl := OpImpl.spdyStream
              push := some OpImpl.spdyStream })

theorem getD_take_of_lt (l : List Nat) (d : Nat) :
    ∀ (n i : Nat), i < n → (l.take n).getD i d = l.getD i d := by
  induction l with
  | nil => intro n i _; simp
  | cons a as ih =>
    intro n i h
    match n, i with
    | n + 1, 0 => simp
    | n + 1, i + 1 =>
      simpa using ih n i (Nat.lt_of_succ_lt_succ h)

theorem hasMismatch_iff (data : List Nat) (avail : Nat) :
    hasMismatch data avail = true ↔
      ∃ i, i < avail ∧ data.getD i 0 ≠ PREFACE_BUFFER.getD i 0 := by
  simp [hasMismatch, List.any_eq_true, List.mem_range, bne_iff_ne]

theorem hasMismatch_eq_false (data : List Nat) (avail : Nat)
    (h : ∀ i, i < avail → data.getD i 0 = PREFACE_BUFFER.getD i 0) :
    hasMismatch data avail = false := by
  rw [Bool.eq_false_iff]
  intro hmm
  obtain ⟨i, hi, hne⟩ := (hasMismatch_iff data avail).mp hmm
  exact hne (h i hi)

theorem hoseFilter_eq_of_ne (data : List Nat) (hlen : 1 ≤ data.length)
    (h0 : data.getD 0 0 ≠ 0x80) :
    hoseFilter data =
      (if hasMismatch data (min data.length PREFACE_BUFFER.length)
        then some "http/1.1"
        else if min data.length PREFACE_BUFFER.length ≠ PREFACE_BUFFER.length
          then none
          else some "h2") := by
  unfold hoseFilter
  rw [if_neg (by omega), if_neg h0]

/-- C4: for any non-empty byte sequence whose first byte is the binary-framed
marker `0x80`, `hoseFilter` classifies the connection as `spdy` immediately,
regardless of any following bytes and without comparing against the preface. -/
theorem c4_spdy_marker_immediate (data : List Nat)
    (hne : data ≠ []) (h0 : data.getD 0 0 = 0x80) :
    hoseFilter data = some "spdy" := by
  have hlen : ¬ data.length < 1 := by
    cases data with
    | nil => exact absurd rfl hne
    | cons a l => simp
  unfold hoseFilter
  rw [if_neg hlen, if_pos h0]

/-- Witness for C4: the two-byte input `[0x80, 0x63]` is classified `spdy`. -/
theorem c4_witness : hoseFilter [0x80, 0x63] = some "spdy" :=
  c4_spdy_marker_immediate [0x80, 0x63] (by decide) (by decide)

/-- C3: for any byte sequence that diverges from the HTTP/2 preface at
position `k` (and whose first byte is not the `0x80` marker), `hoseFilter`
classifies the connection as `http/1.1` already on the first `k + 1` bytes —
it does not request more. -/
theorem c3_mismatch_classified_immediately (data : List Nat) (k : Nat)
    (hk24 : k < PREFACE_BUFFER.length) (hkdata : k < data.length)
    (h0 : data.getD 0 0 ≠ 0x80)
    (hmis : data.getD k 0 ≠ PREFACE_BUFFER.getD k 0) :
    hoseFilter (data.take (k + 1)) = some "http/1.1" := by
  have hlen : (data.take (k + 1)).length = k + 1 := by
    rw [List.length_take]; omega
  have h0' : (data.take (k + 1)).getD 0 0 ≠ 0x80 := by
    rw [getD_take_of_lt data 0 (k + 1) 0 (Nat.succ_pos k)]
    exact h0
  have havail : min (data.take (k + 1)).length PREFACE_BUFFER.length = k + 1 := by
    rw [hlen]; omega
  have hmm : hasMismatch (data.take (k + 1))
      (min (data.take (k + 1)).length PREFACE_BUFFER.length) = true := by
    rw [havail, hasMismatch_iff]
    refine ⟨k, Nat.lt_succ_self k, ?_⟩
    rw [getD_take_of_lt data 0 (k + 1) k (Nat.lt_succ_self k)]
    exact hmis
  rw [hoseFilter_eq_of_ne _ (by omega) h0', if_pos hmm]

/-- Witness for C3: `"GET / HTTP/1.1"` diverges from the preface at position
0, and its first byte alone is classified `http/1.1`. -/
theorem c3_witness :
    hoseFilter (("GET / HTTP/1.1".toList.map Char.toNat).take 1) =
      some "http/1.1" :=
  c3_mismatch_classified_immediately ("GET / HTTP/1.1".toList.map Char.toNat) 0
    (by decide) (by decide) (by decide) (by decide)

/-- C5: for every byte sequence all of whose available bytes match the
corresponding preface prefix, `hoseFilter` answers "need more bytes" (`none`)
as long as fewer than the full 24 preface bytes are available (including the
empty buffer), and classifies the connection as `h2` once the full preface
length has been accumulated. -/
theorem c5_preface_needs_full_length (data : List Nat)
    (hmatch : ∀ i, i < min data.length PREFACE_BUFFER.length →
      data.getD i 0 = PREFACE_BUFFER.getD i 0) :
    (data.length < PREFACE_BUFFER.length → hoseFilter data = none) ∧
    (PREFACE_BUFFER.length ≤ data.length → hoseFilter data = some "h2") := by
  have h24 : PREFACE_BUFFER.length = 24 := by decide
  have hmm : hasMismatch data (min data.length PREFACE_BUFFER.length) = false :=
    hasMismatch_eq_false _ _ hmatch
  cases data with
  | nil =>
    constructor
    · intro _; decide
    · intro h
      rw [h24] at h
      simp at h
  | cons a l =>
    have hlen : 1 ≤ (a :: l).length := by simp
    have h0 : (a :: l).getD 0 0 = PREFACE_BUFFER.getD 0 0 := by
      apply hmatch 0
      rw [h24]
      simp
    have h080 : (a :: l).getD 0 0 ≠ 0x80 := by
      rw [h0]; decide
    rw [hoseFilter_eq_of_ne _ hlen h080, if_neg (by rw [hmm]; simp)]
    constructor
    · intro hshort
      rw [if_pos (by omega)]
    · intro hlong
      rw [if_neg (by omega)]

/-- Witness for C5: the first 10 preface bytes give "need more bytes"; the
full 24-byte preface gives `h2`. -/
theorem c5_witness :
    hoseFilter (PREFACE_BUFFER.take 10) = none ∧
      hoseFilter PREFACE_BUFFER = some "h2" :=
  ⟨(c5_preface_needs_full_length (PREFACE_BUFFER.take 10) (by decide)).1
      (by decide),
    (c5_preface_needs_full_length PREFACE_BUFFER (by decide)).2 (by decide)⟩

/-- C1 (code bug evidence): the sniffer's identifier for a full HTTP/2
preface is `h2` — the same identifier the default NPN/ALPN protocol list
advertises — and this identifier is routed to the `http2` session family
with NO pinned version (no `connection.start` call), because the pinning
chain (server.js line 111) compares against the literal `http2`, an
identifier no code path in the file produces; `http2` itself and the three
exact spdy identifiers would pin 4, 3.1, 3, 2 respectively. -/
theorem c1_h2_version_not_pinned :
    hoseFilter PREFACE_BUFFER = some "h2" ∧
    routeProtocol ⟨true, false, none, []⟩ 0 (some "h2") =
      [ConnEvent.createSession "http2", ConnEvent.registerErrorObserver,
        ConnEvent.registerStreamObserver] ∧
    (routeProtocol ⟨true, false, none, []⟩ 0 (some "h2")).any isStartVersion
      = false ∧
    routeProtocol ⟨true, false, none, []⟩ 0 (some "http2") =
      [ConnEvent.createSession "http2", ConnEvent.startVersion 4,
        ConnEvent.registerErrorObserver, ConnEvent.registerStreamObserver] ∧
    routeProtocol ⟨true, false, none, []⟩ 0 (some "spdy/3.1") =
      [ConnEvent.createSession "spdy", ConnEvent.startVersion (3.1 : ℚ),
        ConnEvent.registerErrorObserver, ConnEvent.registerStreamObserver] ∧
    routeProtocol ⟨true, false, none, []⟩ 0 (some "spdy/3") =
      [ConnEvent.createSession "spdy", ConnEvent.startVersion 3,
        ConnEvent.registerErrorObserver, ConnEvent.registerStreamObserver] ∧
    routeProtocol ⟨true, false, none, []⟩ 0 (some "spdy/2") =
      [ConnEvent.createSession "spdy", ConnEvent.startVersion 2,
        ConnEvent.registerErrorObserver, ConnEvent.registerStreamObserver] :=
  ⟨by decide, rfl, by decide, rfl, rfl, rfl, rfl⟩

/-- Counterexample to C2 as stated: on a plaintext (plain-mode) connection
with a statically configured default protocol (`spdy/3`), the Prefix
Sniffer IS invoked and its result (`http/1.1` for a `GET` request line)
governs — the connection goes to the saved default listener; the configured
default is not used (the claim demands the default be used and the sniffer
not be invoked). -/
theorem c2_counterexample :
    (dispatchConnection ⟨false, true, some "spdy/3", [7]⟩
        ⟨1, none, none, "GET / HTTP/1.1".toList.map Char.toNat⟩).snifferInvoked
      = true ∧
    (dispatchConnection ⟨false, true, some "spdy/3", [7]⟩
        ⟨1, none, none, "GET / HTTP/1.1".toList.map Char.toNat⟩).events
      = some [ConnEvent.invokeListener 7 1] := by
  constructor <;> decide

/-- C2 (amended): in non-plain mode, a TLS next-protocol-negotiation result
governs the connection unconditionally (the default protocol is not
consulted) and the sniffer is never invoked; in non-plain mode without a
negotiation result the configured default protocol is used, still without
sniffing; in plain mode the sniffer is always invoked and its definitive
result governs directly — the configured default is never consulted there. -/
theorem c2_rule_order_amended :
    (∀ (st : ServerState) (c : Conn) (p : String),
      st.plain = false → negotiatedProtocol st c = some p →
        dispatchConnection st c =
          ⟨false, some (routeProtocol st c.socket (some p))⟩) ∧
    (∀ (st : ServerState) (c : Conn),
      st.plain = false → negotiatedProtocol st c = none →
        dispatchConnection st c =
          ⟨false, some (routeProtocol st c.socket st.defaultProtocol)⟩) ∧
    (∀ (st : ServerState) (c : Conn),
      st.plain = true →
        dispatchConnection st c =
          ⟨true, (hoseFilter c.data).map
            (fun p => routeProtocol st c.socket (some p))⟩) := by
  refine ⟨?_, ?_, ?_⟩
  · intro st c p hplain hnpn
    simp [dispatchConnection, hplain, onConnection, handleConnection, hnpn, jsOr]
  · intro st c hplain hnpn
    simp [dispatchConnection, hplain, onConnection, handleConnection, hnpn, jsOr]
  · intro st c hplain
    simp [dispatchConnection, hplain, onPlainConnection, handleConnection, jsOr]

/-- Witness for the amended C2: a secured connection negotiating `h2`, a
secured connection with no negotiation result falling back to the default
`spdy/2`, and a plain connection sniffing `0x80`. -/
theorem c2_witness :
    dispatchConnection ⟨true, false, some "spdy/2", []⟩ ⟨0, some "h2", none, []⟩ =
      ⟨false, some (routeProtocol ⟨true, false, some "spdy/2", []⟩ 0 (some "h2"))⟩ ∧
    dispatchConnection ⟨true, false, some "spdy/2", []⟩ ⟨0, none, none, []⟩ =
      ⟨false, some (routeProtocol ⟨true, false, some "spdy/2", []⟩ 0
        (some "spdy/2"))⟩ ∧
    dispatchConnection ⟨false, true, none, [7]⟩ ⟨1, none, none, [0x80]⟩ =
      ⟨true, (hoseFilter [0x80]).map
        (fun p => routeProtocol ⟨false, true, none, [7]⟩ 1 (some p))⟩ :=
  ⟨c2_rule_order_amended.1 _ _ "h2" rfl rfl,
    c2_rule_order_amended.2.1 _ _ rfl rfl,
    c2_rule_order_amended.2.2 _ _ rfl⟩

/-- C6: when the resolved protocol identifier is falsy, `http/1.1` or
`http/1.0`, no multiplexed session is constructed and the raw socket is
passed unchanged to every saved default connection listener, in their
original registration order. -/
theorem c6_passthrough (st : ServerState) (socket : Nat) (p : Option String)
    (h : p = none ∨ p = some "http/1.1" ∨ p = some "http/1.0") :
    routeProtocol st socket p =
      st.listeners.map (fun l => ConnEvent.invokeListener l socket) ∧
    (routeProtocol st socket p).all (fun e => !isSessionCreate e) = true := by
  have heq : routeProtocol st socket p = invokeDefault st socket := by
    rcases h with h | h | h <;> subst h <;> rfl
  refine ⟨heq, ?_⟩
  rw [heq]
  simp [invokeDefault, List.all_eq_true, isSessionCreate]

/-- Witness for C6: an `http/1.1` connection with two saved listeners is
handed to both, in order, with the same socket. -/
theorem c6_witness :
    routeProtocol ⟨true, false, none, [1, 2]⟩ 5 (some "http/1.1") =
      [ConnEvent.invokeListener 1 5, ConnEvent.invokeListener 2 5] ∧
    (routeProtocol ⟨true, false, none, [1, 2]⟩ 5 (some "http/1.1")).all
      (fun e => !isSessionCreate e) = true :=
  c6_passthrough ⟨true, false, none, [1, 2]⟩ 5 (some "http/1.1")
    (Or.inr (Or.inl rfl))

/-- C7: in `_onStream`, the adapter socket is handed to the saved default
connection listeners strictly before `handle.emitRequest()` signals that the
stream's buffered inbound data is ready, and at that registration the adapter
already reports itself readable and writable. -/
theorem c7_adapter_registered_before_data_signal :
    (∀ j, onStream.get? j = some StreamEvent.emitRequest →
      ∃ i, i < j ∧
        onStream.get? i = some (StreamEvent.invokeDefault adapterSocketReady)) ∧
    adapterSocketReady.readable = true ∧ adapterSocketReady.writable = true := by
  refine ⟨?_, rfl, rfl⟩
  intro j hj
  match j with
  | 0 => exact absurd hj (by decide)
  | 1 => exact absurd hj (by decide)
  | 2 => exact ⟨1, by omega, rfl⟩
  | n + 3 =>
    have hnone : onStream.get? (n + 3) = none := rfl
    rw [hnone] at hj
    exact Option.noConfusion hj

/-- Witness for C7: `emitRequest` sits at index 2 of the `_onStream` trace,
and the registration of the ready adapter socket indeed precedes it. -/
theorem c7_witness :
    ∃ i, i < 2 ∧
      onStream.get? i = some (StreamEvent.invokeDefault adapterSocketReady) :=
  c7_adapter_registered_before_data_signal.1 2 rfl

/-- C10: every adapter-socket state exposed by `_onStream` — both the one
`handle.assignSocket` receives and the one the default listeners receive —
has its `encrypted` flag set to `true`; `_onStream` takes no input describing
the parent connection's security, so this holds for streams of plaintext
(sniffed) connections exactly as for secured ones. -/
theorem c10_adapter_socket_always_encrypted :
    (∀ s, StreamEvent.assignSocket s ∈ onStream → s.encrypted = true) ∧
    (∀ s, StreamEvent.invokeDefault s ∈ onStream → s.encrypted = true) := by
  constructor
  · intro s hs
    simp [onStream] at hs
    subst hs
    rfl
  · intro s hs
    simp [onStream] at hs
    subst hs
    rfl

/-- Witness for C10: the concrete adapter socket handed to the default
listeners is encrypted. -/
theorem c10_witness :
    (⟨true, true, true, true⟩ : AdapterSocket).encrypted = true :=
  c10_adapter_socket_always_encrypted.2 ⟨true, true, true, true⟩ (by decide)

/-- C8: `emit("request", ...)` leaves a non-adapter pair unchanged except for
marking `isSpdy = false`, `spdyVersion = 1`; for an adapter-backed pair it
marks `isSpdy = true`, records the session's reported version, replaces the
response's `writeHead`/`end` and adds a `push` with stream-routed versions,
and binds the Logical Stream to both the request and the response before the
pair is delivered. -/
theorem c8_request_response_shim (version : ℚ) (req : Req) (res : Res) :
    (req.handle = HandleKind.other →
      serverEmit version req res =
        ({ req with isSpdy := some false, spdyVersion := some 1 }, res)) ∧
    (∀ stream, req.handle = HandleKind.spdyHandle stream →
      serverEmit version req res =
        ({ req with
            isSpdy := some true
            spdyVersion := some version
            boundStream := some stream },
          { res with
              writeHead := OpImpl.spdyStream
              endImpl := OpImpl.spdyStream
              push := some OpImpl.spdyStream
              boundStream := some stream })) := by
  obtain ⟨hk, ri, rv, rb⟩ := req
  obtain ⟨w, e, pu, sb⟩ := res
  constructor
  · intro h
    subst h
    rfl
  · intro stream h
    subst h
    rfl

/-- Witness for C8: a plain request/response pair is delivered with
`isSpdy = false`, version 1, untouched response; an adapter-backed pair on a
version-4 session is marked, rewired, and bound to stream 3. -/
theorem c8_witness :
    serverEmit 4 ⟨HandleKind.other, none, none, none⟩
      ⟨OpImpl.plainSocket, OpImpl.plainSocket, none, none⟩ =
      (⟨HandleKind.other, some false, some 1, none⟩,
        ⟨OpImpl.plainSocket, OpImpl.plainSocket, none, none⟩) ∧
    serverEmit 4 ⟨HandleKind.spdyHandle 3, none, none, none⟩
      ⟨OpImpl.plainSocket, OpImpl.plainSocket, none, none⟩ =
      (⟨HandleKind.spdyHandle 3, some true, some 4, some 3⟩,
        ⟨OpImpl.spdyStream, OpImpl.spdyStream, some OpImpl.spdyStream, some 3⟩) :=
  ⟨(c8_request_response_shim 4 ⟨HandleKind.other, none, none, none⟩
      ⟨OpImpl.plainSocket, OpImpl.plainSocket, none, none⟩).1 rfl,
    (c8_request_response_shim 4 ⟨HandleKind.spdyHandle 3, none, none, none⟩
      ⟨OpImpl.plainSocket, OpImpl.plainSocket, none, none⟩).2 3 rfl⟩

/-- C9: every session constructed by `_handleConnection` has an error
observer registered, and that observer's entire response to any session-level
error is to destroy the raw socket — it performs no recovery, retry, or
further session operation. -/
theorem c9_session_error_destroys_socket :
    (∀ (st : ServerState) (socket : Nat) (p : String),
      ¬ (p = "http/1.1" ∨ p = "http/1.0") →
        ConnEvent.registerErrorObserver ∈ routeProtocol st socket (some p)) ∧
    (∀ err, connectionErrorHandler err = [ErrorEffect.destroySocket]) := by
  constructor
  · intro st socket p h
    simp only [routeProtocol, if_neg h]
    simp
  · intro err
    rfl

/-- Witness for C9: a session bootstrapped for `h2` registers the error
observer, and the observer maps a concrete error to exactly a socket
destruction. -/
theorem c9_witness :
    ConnEvent.registerErrorObserver ∈
      routeProtocol ⟨true, false, none, []⟩ 0 (some "h2") ∧
    connectionErrorHandler "protocol violation" = [ErrorEffect.destroySocket] :=
  ⟨c9_session_error_destroys_socket.1 ⟨true, false, none, []⟩ 0 "h2" (by decide),
    c9_session_error_destroys_socket.2 "protocol violation"⟩
